import Mathlib

/-!
Verification development for the Friday voice/gesture desktop assistant.

The Python sources are shallowly embedded as executable Lean functions:

* string helpers mirror the Python `str` operations used by the code
  (`in`-containment, `strip`, `lower`, `str(int)` decimal formatting);
* `uniquePath` embeds `FridayGUI._unique_path` (src/main.py), with the
  filesystem abstracted as the finite list of paths that exist;
* `EngineState`/`sysStep` embed the utterance queue of
  `lib/voice_engine.py` together with the GUI listening loop of
  src/main.py as a labelled transition system;
* `gestureStep`/`gestureRun` embed the per-frame event logic of
  `GestureController._run` (lib/gesture_controller.py);
* `processDispatch`/`routeText` embed `CommandProcessor.process`
  (lib/command_processor.py) and `FridayGUI._handle_recognized_text`;
* the voice-form machinery embeds the create-folder / move-folder
  voice forms of src/main.py.

Time stamps are modelled as integers (milliseconds); the Python code
uses `time.time()` floats, but every comparison in the embedded logic
is order/difference based, so any linearly ordered abelian group is
faithful.
-/

namespace Friday

/-! ## String primitives with Python semantics -/

/-- Test whether the pattern list is an initial segment of the list
(used to embed Python `str.startswith` and substring search). -/
def startsList : List Char → List Char → Bool
  | [], _ => true
  | _ :: _, [] => false
  | p :: ps, c :: cs => p = c && startsList ps cs

/-- Occurrence of `pat` as a contiguous sublist of `l`
(embedding of Python `pat in s` at the character level). -/
def occursList (pat : List Char) : List Char → Bool
  | [] => pat.isEmpty
  | c :: cs => startsList pat (c :: cs) || occursList pat cs

/-- Python `sub in s` substring containment. -/
def strContains (s sub : String) : Bool :=
  occursList sub.data s.data

/-- Python `s.startswith(p)`. -/
def pyStartsWith (s p : String) : Bool :=
  startsList p.data s.data

/-- Python `s.strip(chars)` : remove any of `cs` from both ends. -/
def stripCharsBoth (cs : List Char) (s : String) : String :=
  String.mk (((s.data.dropWhile (fun c => cs.contains c)).reverse.dropWhile
      (fun c => cs.contains c)).reverse)

/-- ASCII whitespace stripped by Python `str.strip()`. -/
def pyIsSpace (c : Char) : Bool :=
  c = ' ' || c = Char.ofNat 9 || c = Char.ofNat 10 || c = Char.ofNat 13 ||
    c = Char.ofNat 11 || c = Char.ofNat 12

/-- Python `s.strip()`. -/
def pyStrip (s : String) : String :=
  String.mk (((s.data.dropWhile pyIsSpace).reverse.dropWhile pyIsSpace).reverse)

/-- ASCII lower-casing of one character (Python `str.lower` restricted
to the ASCII transcripts the recognizer produces). -/
def pyCharLower (c : Char) : Char :=
  if 65 ≤ c.toNat ∧ c.toNat ≤ 90 then Char.ofNat (c.toNat + 32) else c

/-- Python `s.lower()`. -/
def pyLower (s : String) : String :=
  String.mk (s.data.map pyCharLower)

/-- Python `s.replace(a, b)` for a one-character pattern (the only form
the embedded code uses). -/
def replaceChar (a b : Char) (s : String) : String :=
  String.mk (s.data.map (fun c => if c = a then b else c))

/-- Python `s[n:]` character slicing. -/
def dropChars (s : String) (n : Nat) : String :=
  String.mk (s.data.drop n)

/-- Decimal digit character, as produced by Python string formatting. -/
def decDigitChar (d : Nat) : Char := Char.ofNat (48 + d)

/-- Fuelled decimal digit expansion (most significant digit first); with
fuel at least `n + 1` this is the exact digit string of `n`. -/
def decDigitsAux : Nat → Nat → List Char
  | 0, _ => []
  | fuel + 1, n =>
    if n < 10 then [decDigitChar n]
    else decDigitsAux fuel (n / 10) ++ [decDigitChar (n % 10)]

/-- Embedding of Python `str(n)` / f-string formatting of a nonnegative
integer: its decimal representation. -/
def decRepr (n : Nat) : String := String.mk (decDigitsAux (n + 1) n)

/-- Value denoted by a digit-character list, inverse of `decDigitsAux`. -/
def decValue : List Char → Nat
  | [] => 0
  | c :: cs => (c.toNat - 48) * 10 ^ cs.length + decValue cs

theorem decDigitChar_toNat {d : Nat} (h : d < 10) :
    (decDigitChar d).toNat = 48 + d := by
  interval_cases d <;> rfl

theorem decValue_append_digit (l : List Char) (c : Char) :
    decValue (l ++ [c]) = 10 * decValue l + (c.toNat - 48) := by
  induction l with
  | nil => simp [decValue]
  | cons d l ih =>
    have hlen : (l ++ [c]).length = l.length + 1 := by simp
    calc decValue (d :: l ++ [c])
        = (d.toNat - 48) * 10 ^ (l ++ [c]).length + decValue (l ++ [c]) := rfl
      _ = (d.toNat - 48) * (10 ^ l.length * 10) + (10 * decValue l + (c.toNat - 48)) := by
          rw [hlen, ih, pow_succ]
      _ = 10 * ((d.toNat - 48) * 10 ^ l.length + decValue l) + (c.toNat - 48) := by ring
      _ = 10 * decValue (d :: l) + (c.toNat - 48) := rfl

theorem decValue_decDigitsAux : ∀ (fuel n : Nat), n < fuel →
    decValue (decDigitsAux fuel n) = n := by
  intro fuel
  induction fuel with
  | zero => intro n h; omega
  | succ fuel ih =>
    intro n h
    by_cases h10 : n < 10
    · simp [decDigitsAux, h10, decValue, decDigitChar_toNat h10]
    · have hdiv : n / 10 < fuel := by
        have h1 : n / 10 < n := Nat.div_lt_self (by omega) (by omega)
        omega
      simp only [decDigitsAux, if_neg h10, decValue_append_digit, ih (n / 10) hdiv,
        decDigitChar_toNat (Nat.mod_lt n (by omega))]
      omega

theorem decRepr_injective : Function.Injective decRepr := by
  intro a b h
  have ha := decValue_decDigitsAux (a + 1) a (Nat.lt_succ_self a)
  have hb := decValue_decDigitsAux (b + 1) b (Nat.lt_succ_self b)
  have hdata : decDigitsAux (a + 1) a = decDigitsAux (b + 1) b := by
    have := congrArg String.data h
    simpa [decRepr] using this
  rw [hdata, hb] at ha
  omega

/-! ## `FridayGUI._unique_path` (src/main.py lines 2813-2822)

The filesystem is abstracted as the finite list of paths that exist
(`os.path.exists`).  The Python loop tries `f"{base} ({n})"` for
`n = 1, 2, …` until a candidate does not exist; it terminates because
only finitely many paths exist. -/

/-- Candidate path `f"{base} ({n})"` built by the conflict-rename loop. -/
def renameCand (base : String) (n : Nat) : String :=
  base ++ (" (" ++ decRepr n ++ ")")

theorem renameCand_injective (base : String) :
    Function.Injective (renameCand base) := by
  intro m n h
  have e1 : (" (" : String).data = [' ', '('] := rfl
  have e2 : (")" : String).data = [')'] := rfl
  have hdata : base.data ++ ([' ', '('] ++ ((decRepr m).data ++ [')'])) =
      base.data ++ ([' ', '('] ++ ((decRepr n).data ++ [')'])) := by
    have h0 := congrArg String.data h
    simpa [renameCand, String.data_append, e1, e2, List.append_assoc] using h0
  have h2 := List.append_cancel_left hdata
  have h3 := List.append_cancel_left h2
  have h4 : (decRepr m).data = (decRepr n).data := (List.append_inj' h3 rfl).1
  exact decRepr_injective (by apply String.ext; exact h4)

theorem exists_renameCand_free (fs : List String) (base : String) :
    ∃ n : Nat, renameCand base (n + 1) ∉ fs := by
  by_contra hall
  push_neg at hall
  have hsub : (Finset.range (fs.length + 1)).image (fun n => renameCand base (n + 1))
      ⊆ fs.toFinset := by
    intro x hx
    simp only [Finset.mem_image] at hx
    obtain ⟨n, _, rfl⟩ := hx
    exact List.mem_toFinset.2 (hall n)
  have hcard : fs.length + 1 ≤ fs.toFinset.card := by
    have himg : ((Finset.range (fs.length + 1)).image
        (fun n => renameCand base (n + 1))).card = fs.length + 1 := by
      rw [Finset.card_image_of_injective _
        (fun a b hab => by
          have := renameCand_injective base hab
          omega)]
      simp
    calc fs.length + 1 = _ := himg.symm
      _ ≤ fs.toFinset.card := Finset.card_le_card hsub
  have := fs.toFinset_card_le
  omega

/-- Embedding of `FridayGUI._unique_path`: return `path` if it does not
exist, otherwise the first candidate `f"{path} (n)"`, `n = 1, 2, …`,
that does not exist. -/
def uniquePath (fs : List String) (path : String) : String :=
  if path ∈ fs then
    renameCand path (Nat.find (exists_renameCand_free fs path) + 1)
  else path

theorem uniquePath_not_exists (fs : List String) (path : String) :
    uniquePath fs path ∉ fs := by
  unfold uniquePath
  split
  · exact Nat.find_spec (exists_renameCand_free fs path)
  · assumption

/-! ## Utterance queue and listening loop (lib/voice_engine.py, src/main.py)

The TTS side of `VoiceEngine` is a queue (`tts_queue`), a stop flag
(`stop_event`), and a consumer thread (`_process_tts_queue`) that takes
one utterance at a time and renders it.  The GUI listening loop
(`FridayGUI.listen_loop`) polls: it opens a microphone session only when
`pygame.mixer.music.get_busy()` is false.  When the `pyttsx3` backend is
available the consumer renders through `pyttsx3` (not through the pygame
mixer), otherwise through gTTS + pygame.

We model the interleaving of these routines as a labelled transition
system whose atomic steps are the individual Python operations:
enqueueing (`speak`), the consumer taking / finishing one utterance,
the constituent operations of `start_listening` / `stop_speaking`
(`stopSet` for `stop_event.set()`, `drainOne` for one `get_nowait()`
iteration of the drain loop, `listenOn` for setting `is_listening`) —
the consumer thread can interleave between them, in particular its
blocking `tts_queue.get()` can dequeue an utterance after the stop
flag is set but before the drain loop removes it — one poll iteration
of `listen_loop`, and the recognizer returning.  `guiStartListening`
is kept as the composed transition for an execution of
`start_listening` during which no consumer step interleaves with the
stop-and-drain (it is used only from states with an empty queue, where
no interleaving is possible).  `rendered` logs every utterance whose
rendering started. -/

/-- Queue/flag/in-flight state of `VoiceEngine` TTS. -/
structure EngineState where
  queue : List String
  stopEvent : Bool
  rendering : Option String
deriving DecidableEq

/-- Embedding of `VoiceEngine.speak`: whitespace-only text is dropped,
otherwise the text is appended to the queue. -/
def speakE (t : String) (e : EngineState) : EngineState :=
  if pyStrip t = "" then e else { e with queue := e.queue ++ [t] }

/-- Embedding of `VoiceEngine.stop_speaking`: set the stop flag and
drain every queued-but-not-started utterance. -/
def stopSpeakingE (e : EngineState) : EngineState :=
  { e with stopEvent := true, queue := [] }

/-- Combined state: engine, the GUI `is_listening` flag, whether a
microphone session is currently open, and the log of utterances whose
rendering has started. -/
structure SysState where
  engine : EngineState
  listening : Bool
  sessionOpen : Bool
  rendered : List String
deriving DecidableEq

/-- Atomic interleaving steps of the three routines.  `stopSet`,
`drainOne` and `listenOn` are the constituent operations of
`stop_speaking` / `start_listening`; `guiStartListening` is their
uninterleaved composition. -/
inductive SysStep where
  | speak (t : String)
  | consumeStart
  | consumeFinish
  | guiStartListening
  | guiStopListening
  | pollListen
  | sessionClose
  | stopSet
  | drainOne
  | listenOn
deriving DecidableEq

/-- Is this a `speak` step? -/
def SysStep.isSpeak : SysStep → Bool
  | .speak _ => true
  | _ => false

/-- Does `pygame.mixer.music.get_busy()` report busy?  Only the gTTS
fallback path (no `pyttsx3`) plays through the pygame mixer; the
`pyttsx3` path renders outside it. -/
def mixerBusy (pyAvail : Bool) (e : EngineState) : Bool :=
  !pyAvail && e.rendering.isSome

/-- One atomic step of the combined system.  `pyAvail` says whether the
`pyttsx3` backend is importable (the preferred branch of
`_process_tts_queue`). -/
def sysStep (pyAvail : Bool) (s : SysState) : SysStep → SysState
  | .speak t => { s with engine := speakE t s.engine }
  | .consumeStart =>
    match s.engine.rendering, s.engine.queue with
    | none, t :: rest =>
      { s with
        engine := { s.engine with queue := rest, rendering := some t },
        rendered := s.rendered ++ [t] }
    | _, _ => s
  | .consumeFinish =>
    match s.engine.rendering with
    | some _ =>
      { s with engine := { s.engine with
          rendering := none,
          stopEvent := if pyAvail then false else s.engine.stopEvent } }
    | none => s
  | .guiStartListening =>
    { s with engine := stopSpeakingE s.engine, listening := true }
  | .guiStopListening => { s with listening := false }
  | .pollListen =>
    if s.listening && !s.sessionOpen && !(mixerBusy pyAvail s.engine) then
      { s with sessionOpen := true }
    else s
  | .sessionClose => { s with sessionOpen := false }
  | .stopSet => { s with engine := { s.engine with stopEvent := true } }
  | .drainOne =>
    match s.engine.queue with
    | _ :: rest => { s with engine := { s.engine with queue := rest } }
    | [] => s
  | .listenOn => { s with listening := true }

/-- Run a list of steps from a state. -/
def sysRun (pyAvail : Bool) (s : SysState) : List SysStep → SysState
  | [] => s
  | st :: rest => sysRun pyAvail (sysStep pyAvail s st) rest

/-- Initial state: empty queue, nothing rendering, not listening. -/
def initSys : SysState :=
  { engine := { queue := [], stopEvent := false, rendering := none },
    listening := false, sessionOpen := false, rendered := [] }

/-! ## Gesture debouncer (lib/gesture_controller.py, `GestureController._run`)

Per camera frame the loop classifies `fingers_up` and keeps
`last_action` (cooldown gate shared by the fist / three-finger /
four-plus buckets), `two_start` and `two_hold_fired` (two-finger
tap-vs-hold tracking).  A frame is modelled as
`(timestamp, some fingerCount)` when a hand is detected and
`(timestamp, none)` otherwise; frames without a hand skip the whole
block, exactly as in the source.  Emitted events are tagged with the
frame timestamp.  `cooldown_s` is clamped to `≥ 0` and
`two_finger_hold_s` to `≥ 0.1` by `__init__`, so `0 < hold` below. -/

/-- Tracking state of the gesture loop. -/
structure GState where
  lastAction : Int
  twoStart : Option Int
  twoHoldFired : Bool
deriving DecidableEq

/-- Discrete semantic gesture events dispatched by the loop.  The code
maps bucket 3 to `on_open_hand`, bucket `≥ 4` to `on_open_palm`,
bucket 0 to `on_closed_fist`. -/
inductive GEvent where
  | pointerMove
  | twoFingerTap
  | twoFingerHold
  | openHand
  | openPalm
  | closedFist
deriving DecidableEq

/-- Is the event gated by the shared cooldown?  (`PointerMove`, taps and
holds are not.) -/
def isGated : GEvent → Bool
  | .openHand => true
  | .openPalm => true
  | .closedFist => true
  | _ => false

/-- Two-finger tap-vs-hold block of one frame: on entry into bucket 2
record `two_start`; while in bucket 2 fire `TwoFingerHoldStart` once as
soon as the hold threshold is reached; on leaving bucket 2 fire
`TwoFingerTap` if the duration measured at the exit frame is below the
threshold, and reset tracking regardless. -/
def twoFingerPart (hold : Int) (s : GState) (t : Int) (fingers : Nat) :
    GState × List (Int × GEvent) :=
  if fingers = 2 then
    let start := s.twoStart.getD t
    let fired := if s.twoStart.isSome then s.twoHoldFired else false
    if fired = false ∧ hold ≤ t - start then
      ({ s with twoStart := some start, twoHoldFired := true },
       [(t, GEvent.twoFingerHold)])
    else
      ({ s with twoStart := some start, twoHoldFired := fired }, [])
  else
    let evs :=
      match s.twoStart with
      | some start => if t - start < hold then [(t, GEvent.twoFingerTap)] else []
      | none => []
    ({ s with twoStart := none, twoHoldFired := false }, evs)

/-- Cooldown-gated block of one frame: fist / three fingers /
four-or-more share one `last_action` gate. -/
def cooldownPart (cool : Int) (s1 : GState) (t : Int) (fingers : Nat) :
    GState × List (Int × GEvent) :=
  if 0 < cool ∧ t - s1.lastAction < cool then (s1, [])
  else if fingers = 3 then ({ s1 with lastAction := t }, [(t, GEvent.openHand)])
  else if 4 ≤ fingers then ({ s1 with lastAction := t }, [(t, GEvent.openPalm)])
  else if fingers = 0 then ({ s1 with lastAction := t }, [(t, GEvent.closedFist)])
  else (s1, [])

/-- One frame of `GestureController._run`: frames without a hand skip
everything; with a hand the pointer is dispatched every frame, then the
two-finger logic, then the cooldown-gated actions. -/
def gestureStep (hold cool : Int) (s : GState) (samp : Int × Option Nat) :
    GState × List (Int × GEvent) :=
  match samp with
  | (_, none) => (s, [])
  | (t, some fingers) =>
    let a := twoFingerPart hold s t fingers
    let b := cooldownPart cool a.1 t fingers
    (b.1, (t, GEvent.pointerMove) :: (a.2 ++ b.2))

/-- Run the gesture loop over a frame stream, collecting all events. -/
def gestureRun (hold cool : Int) (s : GState) :
    List (Int × Option Nat) → GState × List (Int × GEvent)
  | [] => (s, [])
  | samp :: rest =>
    let se := gestureStep hold cool s samp
    let se2 := gestureRun hold cool se.1 rest
    (se2.1, se.2 ++ se2.2)

/-- Initial tracking state (`last_action = 0.0`, `two_start = None`,
`two_hold_fired = False`). -/
def initG : GState := { lastAction := 0, twoStart := none, twoHoldFired := false }

/-- Number of `TwoFingerTap` events in a log. -/
def tapCount (evs : List (Int × GEvent)) : Nat :=
  (evs.filter (fun te => te.2 = GEvent.twoFingerTap)).length

/-- Number of `TwoFingerHoldStart` events in a log. -/
def holdCount (evs : List (Int × GEvent)) : Nat :=
  (evs.filter (fun te => te.2 = GEvent.twoFingerHold)).length

/-- Number of `ClosedFist` events in a log. -/
def fistCount (evs : List (Int × GEvent)) : Nat :=
  (evs.filter (fun te => te.2 = GEvent.closedFist)).length

/-- Timestamps of the cooldown-gated events of a log, in order. -/
def gatedTimes (evs : List (Int × GEvent)) : List Int :=
  (evs.filter (fun te => isGated te.2)).map Prod.fst

/-! ## Command router (lib/command_processor.py and src/main.py)

`CommandProcessor.process` lower-cases and strips the transcript, then
tries, in order: chatbot mode, a pending question, the casual-response
patterns, the fixed "search" check, the "research"/"tell me about"/
"what is" check, the general keyword table in insertion order, and
finally the conversation-mode / didn't-understand fallbacks.
`FridayGUI._handle_recognized_text` wraps it: an active voice form,
then the hide/sleep and create/move folder trigger phrases, are
checked before `process` is ever called.  We record which handler a
transcript is dispatched to (`Route`); exactly one handler runs. -/

/-- Conversational-state flags consulted by the router.
`voiceFormActive` is the truthiness of `FridayGUI._voice_form`;
`chatActive` is `chatbot.chat_mode_active`; `pending` is
`CommandProcessor.pending_question`; `conversationMode` is
`CommandProcessor.conversation_mode`. -/
structure RouterState where
  voiceFormActive : Bool
  chatActive : Bool
  pending : Option String
  conversationMode : Bool
deriving DecidableEq

/-- The handler a transcript is dispatched to. -/
inductive Route where
  | noop
  | voiceForm
  | hideInterface
  | startCreateFolderRoute
  | startMoveFolderRoute
  | chatbot
  | pendingAnswer
  | casual
  | searchHandler
  | researchHandler
  | table (handler : String)
  | convCasual
  | fallback
deriving DecidableEq

/-- The general keyword table of `_initialize_commands`, in insertion
order (Python dicts preserve it); values are the bound handler names. -/
def commandTable : List (String × String) :=
  [("time", "get_time"), ("date", "get_date"), ("friday", "handle_friday_name"),
   ("bye", "say_goodbye"), ("goodbye", "say_goodbye"), ("shutdown", "shutdown_system"),
   ("power off", "shutdown_system"), ("open", "open_url_or_app"), ("search", "search"),
   ("research", "research"), ("learn", "handle_learn_command"),
   ("learn about", "handle_learn_command"), ("let\x27s chat", "start_chat_mode"),
   ("let chat", "start_chat_mode"), ("chat", "start_chat_mode"),
   ("talk", "start_chat_mode"), ("activate chatbot", "activate_chatbot"),
   ("chatbot mode", "activate_chatbot"), ("chat mode", "activate_chatbot"),
   ("deactivate chatbot", "deactivate_chatbot"), ("exit chatbot", "deactivate_chatbot"),
   ("i\x27m bored", "handle_bored"), ("im bored", "handle_bored"),
   ("i am bored", "handle_bored"), ("weather", "get_weather_info"),
   ("app", "launch_app"), ("hello", "greet"), ("help", "show_help"),
   ("tell", "handle_tell_command"), ("execute", "execute_command"),
   ("mouse", "handle_mouse"), ("click", "handle_mouse"),
   ("copy", "handle_shortcuts"), ("paste", "handle_shortcuts"),
   ("tab", "handle_shortcuts"), ("scroll", "handle_mouse"),
   ("write", "handle_writing"), ("type", "handle_writing"),
   ("youtube", "play_on_youtube"), ("play", "play_on_youtube"),
   ("shut up", "silence_assistant"), ("stop talking", "silence_assistant"),
   ("be quiet", "silence_assistant"), ("tell me about", "perform_research"),
   ("what is", "perform_research"), ("play a game", "start_game"),
   ("guess", "play_guess"), ("rock paper scissors", "play_rps"),
   ("rock", "play_rps"), ("paper", "play_rps"), ("scissors", "play_rps"),
   ("rock paper", "play_rps"), ("xo", "start_xo_game"),
   ("tic tac toe", "start_xo_game"), ("tic-tac-toe", "start_xo_game")]

/-- Whole-string alternatives of the first casual pattern
(`^(yes|yeah|…)$`). -/
def casualExact : List String :=
  ["yes", "yeah", "yep", "yup", "no", "nope", "nah", "ok", "okay", "sure",
   "alright", "fine", "cool"]

/-- Anchored-prefix alternatives of the other casual patterns (the
regexes have `^` but no `$`). -/
def casualStarts : List String :=
  ["it was", "it\x27s", "it is", "they were", "they\x27re",
   "i like", "i prefer", "i love", "i hate", "i enjoy", "i think", "i feel",
   "i want", "i need",
   "that\x27s", "that is", "this is", "these are",
   "good", "great", "fine", "okay", "bad", "terrible", "amazing", "awesome",
   "nice", "cool",
   "i would go", "i would travel", "i would visit", "i would choose",
   "i would pick"]

/-- Embedding of `_is_casual_response` on the already lower-cased
command (the patterns use `re.IGNORECASE` and `re.match`, i.e. they are
anchored at the start only). -/
def isCasual (t : String) : Bool :=
  casualExact.contains t || casualStarts.any (fun p => pyStartsWith t p)

/-- Embedding of `CommandProcessor.process`: which handler the command
is dispatched to.  Returns `.fallback` for the didn't-understand path
(where `process` returns `False` and the GUI `_fallback_handle_command`
takes over). -/
def processDispatch (st : RouterState) (command : String) : Route :=
  if command = "" then .fallback
  else
    let cmd := pyLower (pyStrip command)
    if st.chatActive then .chatbot
    else if st.pending.isSome then .pendingAnswer
    else if isCasual cmd then .casual
    else if strContains cmd "search" then .searchHandler
    else if strContains cmd "research" || strContains cmd "tell me about" ||
        strContains cmd "what is" then .researchHandler
    else
      match commandTable.find? (fun kv => strContains cmd kv.1) with
      | some kv => .table kv.2
      | none => if st.conversationMode then .convCasual else .fallback

/-- FridayGUI hide/sleep trigger test (on the lower-cased transcript). -/
def guiHideTrigger (lowered : String) : Bool :=
  strContains lowered "hide" || strContains lowered "sleep" ||
    strContains lowered "go to sleep"

/-- FridayGUI create-folder trigger test. -/
def guiCreateTrigger (lowered : String) : Bool :=
  (strContains lowered "create" && strContains lowered "folder") ||
    strContains lowered "new folder"

/-- FridayGUI move-folder trigger test. -/
def guiMoveTrigger (lowered : String) : Bool :=
  (strContains lowered "move" && strContains lowered "folder") ||
    pyStrip lowered = "move"

/-- Embedding of `FridayGUI._handle_recognized_text`: the full
transcript routing, including the GUI-level checks that run before
`CommandProcessor.process`. -/
def routeText (st : RouterState) (raw : String) : Route :=
  let text := pyStrip raw
  if text = "" then .noop
  else if st.voiceFormActive then .voiceForm
  else
    let lowered := pyLower text
    if guiHideTrigger lowered then .hideInterface
    else if guiCreateTrigger lowered then .startCreateFolderRoute
    else if guiMoveTrigger lowered then .startMoveFolderRoute
    else processDispatch st text

/-! ## Voice forms (src/main.py, `_voice_form_*`)

The create-folder and move-folder voice forms are dicts with a `mode`,
a `step`, and the collected fields.  Handlers speak prompts, update the
form, and on confirmation perform the side effect.  The filesystem is
abstracted as the list `fs` of existing paths; directory creation and
the `os.makedirs(dest_dir, exist_ok=True)` pre-step are modelled as
succeeding (the model has no permission failures), and UI label updates
and window creation are recorded as effects. -/

/-- Step of the create-folder form (`"name"`,
`"location_or_confirm"`). -/
inductive CFStep where
  | name
  | locationOrConfirm
deriving DecidableEq

/-- Step of the move-folder form. -/
inductive MFStep where
  | source
  | destination
  | confirm
deriving DecidableEq

/-- Collected fields of the create-folder form. -/
structure CreateForm where
  step : CFStep
  name : String
  destDir : String
deriving DecidableEq

/-- Collected fields of the move-folder form. -/
structure MoveForm where
  step : MFStep
  src : String
  dst : String
  onConflict : String
deriving DecidableEq

/-- The `_voice_form` dict: one of the two form kinds. -/
inductive VForm where
  | create (f : CreateForm)
  | move (f : MoveForm)
deriving DecidableEq

/-- Observable side effects of the voice-form handlers. -/
inductive Eff where
  | speak (text : String)
  | logMsg (text : String)
  | openWindow (title : String)
  | ensureDir (path : String)
  | mkdir (path : String)
  | moveFolder (src dst conflict : String)
deriving DecidableEq

/-- Paths passed to the folder-creation call
(`os.makedirs(target, exist_ok=False)`) in an effect log. -/
def mkdirEffs (effs : List Eff) : List String :=
  effs.filterMap (fun e => match e with | .mkdir p => some p | _ => none)

/-- Embedding of `_default_user_location`: the first of
`~/Desktop`, `~/Downloads`, `~/Documents` that exists, else `~`. -/
def defaultUserLocation (home : String) (fs : List String) : String :=
  if home ++ "/Desktop" ∈ fs then home ++ "/Desktop"
  else if home ++ "/Downloads" ∈ fs then home ++ "/Downloads"
  else if home ++ "/Documents" ∈ fs then home ++ "/Documents"
  else home

/-- Embedding of `os.path.expanduser` for the cases the assistant can
produce (`~` and `~/…`; named-user tildes are passed through). -/
def expandUser (home : String) (p : String) : String :=
  if p = "~" then home
  else if pyStartsWith p "~/" then home ++ dropChars p 1
  else p

/-- Embedding of `_extract_folder_name`. -/
def extractFolderName (text : String) : String :=
  let t := pyStrip text
  let t :=
    match ["name it", "call it", "folder name", "the name is"].find?
        (fun p => pyStartsWith (pyLower t) p) with
    | some p => pyStrip (dropChars t p.data.length)
    | none => t
  let t := pyStrip (stripCharsBoth ['"', Char.ofNat 39, ' '] t)
  pyStrip (replaceChar (Char.ofNat 92) ' ' (replaceChar '/' ' ' t))

/-- Part of a string after its first space (Python
`text.split(" ", 1)[1]`, only used under a `" " in text` guard). -/
def afterFirstSpace (s : String) : String :=
  String.mk ((s.data.dropWhile (fun c => c ≠ ' ')).drop 1)

/-- Embedding of `_location_from_speech`. -/
def locationFromSpeech (home : String) (text : String) : Option String :=
  let t := pyLower text
  if strContains t "desktop" then some (home ++ "/Desktop")
  else if strContains t "downloads" then some (home ++ "/Downloads")
  else if strContains t "documents" then some (home ++ "/Documents")
  else if strContains t "home" then some home
  else if pyStartsWith t "/" || (strContains t ":" && strContains t "\\") then
    some (pyStrip text)
  else if strContains t "path " then
    if strContains text " " then some (pyStrip (afterFirstSpace text)) else none
  else none

/-- Cancellation test of `_voice_form_handle`:
`"cancel" in lowered or lowered in {"stop", "never mind", "nevermind"}`. -/
def cancelPhrase (text : String) : Bool :=
  let lowered := pyLower (pyStrip text)
  strContains lowered "cancel" || lowered = "stop" || lowered = "never mind" ||
    lowered = "nevermind"

/-- Confirmation test at the `location_or_confirm` step:
`"confirm" in text.lower() or text.strip().lower() in {"create", "go ahead"}`. -/
def confirmPhraseCF (text : String) : Bool :=
  strContains (pyLower text) "confirm" || pyLower (pyStrip text) = "create" ||
    pyLower (pyStrip text) = "go ahead"

/-- Confirmation test at the move-folder `confirm` step. -/
def confirmPhraseMF (text : String) : Bool :=
  strContains (pyLower text) "confirm" || pyLower (pyStrip text) = "move" ||
    pyLower (pyStrip text) = "go ahead"

/-- Embedding of `_voice_form_start_create_folder`: silently ignored if
a form is active, otherwise opens the window and asks for a name. -/
def startCreateFolderForm (home : String) (fs : List String)
    (form : Option VForm) : Option VForm × List Eff :=
  match form with
  | some f => (some f, [])
  | none =>
    (some (.create { step := .name, name := "",
                     destDir := defaultUserLocation home fs }),
     [Eff.openWindow "Create Folder (Voice)",
      Eff.speak "What should I name the folder?"])

/-- Embedding of `_voice_form_start_move_folder`: silently ignored if a
form is active. -/
def startMoveFolderForm (form : Option VForm) : Option VForm × List Eff :=
  match form with
  | some f => (some f, [])
  | none =>
    (some (.move { step := .source, src := "", dst := "", onConflict := "Rename" }),
     [Eff.openWindow "Move Folder (Voice)",
      Eff.speak "Tell me the source folder path."])

/-- Embedding of `_voice_form_create_folder_now`: ensure the location
exists, compute the conflict-renamed target with `_unique_path`, create
it, and reset the form. -/
def createFolderNow (fs : List String) (cf : CreateForm) :
    Option VForm × List Eff :=
  let nm := pyStrip cf.name
  let dest := pyStrip cf.destDir
  if nm = "" then (some (.create cf), [])
  else
    let target := uniquePath (dest :: fs) (dest ++ "/" ++ nm)
    (none,
     [Eff.ensureDir dest, Eff.mkdir target,
      Eff.logMsg ("Folder created: " ++ target), Eff.speak "Folder created."])

/-- Embedding of `_voice_form_handle_create_folder`. -/
def handleCreateFolder (home : String) (fs : List String) (cf : CreateForm)
    (text : String) : Option VForm × List Eff :=
  match cf.step with
  | .name =>
    let nm := extractFolderName text
    if nm = "" then
      (some (.create cf),
       [Eff.speak "I didn\x27t catch the name. Please say it again."])
    else
      (some (.create { cf with name := nm, step := .locationOrConfirm }),
       [Eff.speak ("Where should I create it? Say desktop, downloads, " ++
         "documents, home, or say confirm.")])
  | .locationOrConfirm =>
    if confirmPhraseCF text then createFolderNow fs cf
    else
      match locationFromSpeech home text with
      | some loc =>
        (some (.create { cf with destDir := expandUser home loc }),
         [Eff.speak "Say confirm to create the folder."])
      | none =>
        (some (.create cf),
         [Eff.speak "Say desktop, downloads, documents, home, or confirm."])

/-- Embedding of `_voice_form_handle_move_folder`. -/
def handleMoveFolder (home : String) (fs : List String) (mf : MoveForm)
    (text : String) : Option VForm × List Eff :=
  match mf.step with
  | .source =>
    let src := expandUser home ((locationFromSpeech home text).getD (pyStrip text))
    if src ∈ fs then
      (some (.move { mf with src := src, step := .destination }),
       [Eff.speak "Now tell me the destination folder path."])
    else
      (some (.move mf),
       [Eff.logMsg "Source not found; waiting again.",
        Eff.speak "That source folder does not exist. Please say the full path again."])
  | .destination =>
    let dst := expandUser home ((locationFromSpeech home text).getD (pyStrip text))
    if dst ∈ fs then
      (some (.move { mf with dst := dst, step := .confirm }),
       [Eff.speak "Say confirm to move the folder."])
    else
      (some (.move mf),
       [Eff.logMsg "Destination not found; waiting again.",
        Eff.speak "That destination folder does not exist. Please say the full path again."])
  | .confirm =>
    if confirmPhraseMF text then
      (none,
       [Eff.logMsg ("Voice move confirmed: " ++ mf.src ++ " -> " ++ mf.dst),
        Eff.moveFolder mf.src mf.dst mf.onConflict, Eff.speak "Moving now."])
    else (some (.move mf), [Eff.speak "Say confirm to move, or cancel."])

/-- Embedding of `_voice_form_handle`: cancellation phrases are checked
first at every step, then the handler of the active form kind runs. -/
def voiceFormHandle (home : String) (fs : List String) (form : Option VForm)
    (text : String) : Option VForm × List Eff :=
  match form with
  | none => (none, [])
  | some f =>
    if cancelPhrase text then
      (none, [Eff.logMsg "Voice operation cancelled.", Eff.speak "Cancelled."])
    else
      match f with
      | .create cf => handleCreateFolder home fs cf text
      | .move mf => handleMoveFolder home fs mf text

/-- Feed a list of transcripts to the active voice form, concatenating
the effects. -/
def voiceFormRunAll (home : String) (fs : List String) (form : Option VForm) :
    List String → Option VForm × List Eff
  | [] => (form, [])
  | t :: ts =>
    let fe := voiceFormHandle home fs form t
    let fe2 := voiceFormRunAll home fs fe.1 ts
    (fe2.1, fe.2 ++ fe2.2)

/-- The destination directory after a list of location utterances: each
recognized location replaces the previous one (the "last-provided
location"). -/
def lastDest (home : String) (dflt : String) (ls : List String) : String :=
  ls.foldl
    (fun d l =>
      match locationFromSpeech home l with
      | some loc => expandUser home loc
      | none => d) dflt

/-! # Claim theorems -/

/-- C1 (code bug witness): with the preferred `pyttsx3` backend
available, the interleaving start-listening / speak / consumer-takes /
listen-loop-poll reaches a state in which a microphone session is open
while the utterance is still rendering.  The `listen_loop` guard checks
only `pygame.mixer.music.get_busy()`, which the `pyttsx3` rendering
path never sets, so the loop opens the microphone while the system is
speaking — contradicting the spec's core mutual-exclusion invariant. -/
theorem c1_listen_open_while_rendering :
    (sysRun true initSys
      [SysStep.guiStartListening, SysStep.speak "hello",
       SysStep.consumeStart, SysStep.pollListen]).sessionOpen = true ∧
    (sysRun true initSys
      [SysStep.guiStartListening, SysStep.speak "hello",
       SysStep.consumeStart, SysStep.pollListen]).engine.rendering = some "hello" ∧
    (sysRun true initSys
      [SysStep.guiStartListening, SysStep.speak "hello",
       SysStep.consumeStart, SysStep.pollListen]).listening = true := by
  decide

/-- C2: with chatbot mode off, no pending question, and a transcript
that is not a casual-response pattern, any command containing
`"search"` is dispatched by `CommandProcessor.process` to the search
handler — before the research/tell-me-about check and before the
general keyword table is scanned; exactly one handler is invoked. -/
theorem c2_search_priority (st : RouterState) (command : String)
    (hchat : st.chatActive = false) (hpend : st.pending = none)
    (hcas : isCasual (pyLower (pyStrip command)) = false)
    (hsearch : strContains (pyLower (pyStrip command)) "search" = true)
    (hne : command ≠ "") :
    processDispatch st command = Route.searchHandler := by
  simp [processDispatch, hne, hchat, hpend, hcas, hsearch]

/-- Router state with no mode active (fresh start of the assistant). -/
def idleRouter : RouterState :=
  { voiceFormActive := false, chatActive := false, pending := none,
    conversationMode := false }

/-- C2 witness: the transcript `"search for the research paper"`, which
also contains the trigger `"research"` and several general-table keys,
is dispatched to the search handler, both at the `process` level and
through the full GUI routing. -/
theorem c2_search_priority_witness :
    processDispatch idleRouter "search for the research paper" =
      Route.searchHandler ∧
    routeText idleRouter "search for the research paper" =
      Route.searchHandler :=
  ⟨c2_search_priority _ _ rfl rfl (by decide) (by decide) (by decide),
   by decide⟩

/-- C8: `stop_speaking` is idempotent — applying it twice gives exactly
the state of applying it once — and on a state with an empty queue and
nothing rendering its only change is setting the stop flag. -/
theorem c8_stop_and_drain_idempotent (e1 e2 : EngineState)
    (hq : e2.queue = []) (hr : e2.rendering = none) :
    stopSpeakingE (stopSpeakingE e1) = stopSpeakingE e1 ∧
    stopSpeakingE e2 = { e2 with stopEvent := true } := by
  constructor
  · rfl
  · cases e2 with
    | mk q st r =>
      simp only at hq
      subst hq
      rfl

/-- Engine state rendering `"b"` with `"a"` queued. -/
def busyEngine : EngineState :=
  { queue := ["a"], stopEvent := false, rendering := some "b" }

/-- Engine state with empty queue and nothing rendering. -/
def idleEngine : EngineState :=
  { queue := [], stopEvent := false, rendering := none }

/-- C8 witness: concrete instantiation on a busy and an idle engine
state. -/
theorem c8_stop_and_drain_idempotent_witness :
    stopSpeakingE (stopSpeakingE busyEngine) = stopSpeakingE busyEngine ∧
    stopSpeakingE idleEngine = { idleEngine with stopEvent := true } :=
  c8_stop_and_drain_idempotent busyEngine idleEngine rfl rfl

/-- C9: starting a create-folder or move-folder voice form while a form
is already active is silently ignored: the active form (mode, step and
collected fields) is returned unchanged and no window is opened, no
prompt spoken. -/
theorem c9_voice_form_state_conflict (home : String) (fs : List String)
    (f : VForm) :
    startCreateFolderForm home fs (some f) = (some f, []) ∧
    startMoveFolderForm (some f) = (some f, []) :=
  ⟨rfl, rfl⟩

/-- C10: `_unique_path` returns its argument unchanged when the path
does not exist; otherwise it returns `f"{path} (n)"` for the smallest
`n ≥ 1` whose candidate does not exist; in both cases the returned path
never names an existing file or folder. -/
theorem c10_unique_path_conflict_rename (fs : List String) (path : String) :
    (path ∉ fs → uniquePath fs path = path) ∧
    (path ∈ fs → ∃ n, 1 ≤ n ∧ uniquePath fs path = renameCand path n ∧
      renameCand path n ∉ fs ∧ ∀ m, 1 ≤ m → m < n → renameCand path m ∈ fs) ∧
    uniquePath fs path ∉ fs := by
  refine ⟨fun h => ?_, fun h => ?_, uniquePath_not_exists fs path⟩
  · unfold uniquePath
    rw [if_neg h]
  · refine ⟨Nat.find (exists_renameCand_free fs path) + 1, by omega, ?_, ?_, ?_⟩
    · unfold uniquePath
      rw [if_pos h]
    · exact Nat.find_spec (exists_renameCand_free fs path)
    · intro m h1 h2
      have h3 := Nat.find_min (exists_renameCand_free fs path)
        (m := m - 1) (by omega)
      have h4 : m - 1 + 1 = m := by omega
      rw [h4] at h3
      exact not_not.mp h3

theorem sysRun_append (pyAvail : Bool) (l1 l2 : List SysStep) :
    ∀ s : SysState,
      sysRun pyAvail s (l1 ++ l2) = sysRun pyAvail (sysRun pyAvail s l1) l2 := by
  induction l1 with
  | nil => intro s; rfl
  | cons st l1 ih => intro s; simp only [List.cons_append, sysRun]; exact ih _

theorem sysStep_no_speak_queue (pyAvail : Bool) (s : SysState) (st : SysStep)
    (hq : s.engine.queue = []) (hns : st.isSpeak = false) :
    (sysStep pyAvail s st).engine.queue = [] ∧
    (sysStep pyAvail s st).rendered = s.rendered := by
  cases st with
  | speak t => simp [SysStep.isSpeak] at hns
  | consumeStart =>
    cases hrend : s.engine.rendering <;> simp [sysStep, hq, hrend]
  | consumeFinish =>
    cases hrend : s.engine.rendering <;> simp [sysStep, hq, hrend]
  | guiStartListening => simp [sysStep, stopSpeakingE]
  | guiStopListening => simp [sysStep, hq]
  | pollListen =>
    simp only [sysStep]
    split <;> simp [hq]
  | sessionClose => simp [sysStep, hq]
  | stopSet => simp [sysStep, hq]
  | drainOne => simp [sysStep, hq]
  | listenOn => simp [sysStep, hq]

theorem sysRun_no_speak (pyAvail : Bool) :
    ∀ (steps : List SysStep) (s : SysState), s.engine.queue = [] →
      (∀ st ∈ steps, st.isSpeak = false) →
      (sysRun pyAvail s steps).rendered = s.rendered ∧
      (sysRun pyAvail s steps).engine.queue = [] := by
  intro steps
  induction steps with
  | nil => intro s hq _; exact ⟨rfl, hq⟩
  | cons st steps ih =>
    intro s hq hns
    have h1 := sysStep_no_speak_queue pyAvail s st hq
      (hns st (List.mem_cons_self st steps))
    have h2 := ih (sysStep pyAvail s st) h1.1
      (fun x hx => hns x (List.mem_cons_of_mem st hx))
    exact ⟨h2.1.trans h1.2, h2.2⟩

/-- Racing barge-in interleaving: `"hello"` is queued and not yet
started; `start_listening` begins and sets the stop flag; the consumer
thread's blocking `tts_queue.get()` wakes and dequeues `"hello"`
before the drain loop runs; the drain loop finds the queue empty;
`is_listening` is set; the `pyttsx3` render then completes in full,
since that path consults the stop flag only after `runAndWait()`. -/
def bargeRaceTrace : List SysStep :=
  [SysStep.speak "hello", SysStep.stopSet, SysStep.consumeStart,
   SysStep.drainOne, SysStep.listenOn, SysStep.consumeFinish]

/-- C7 counterexample: with the preferred `pyttsx3` backend, an
utterance that is queued and not yet started when `start_listening` is
called can still be rendered afterward.  `stop_speaking` sets the stop
flag and then drains with unsynchronized `get_nowait()` calls; the
consumer's `tts_queue.get()` can dequeue the utterance in between, and
the `pyttsx3` path checks the stop flag only after `runAndWait()`
returns, so the utterance is rendered to completion (and the stop flag
is even cleared again) — falsifying "zero of those queued utterances
being rendered afterward" and "halts current speech". -/
theorem c7_barge_in_counterexample :
    (sysRun true initSys [SysStep.speak "hello"]).engine.queue = ["hello"] ∧
    (sysRun true initSys [SysStep.speak "hello"]).rendered = [] ∧
    (sysRun true initSys bargeRaceTrace).rendered = ["hello"] ∧
    (sysRun true initSys bargeRaceTrace).engine.rendering = none ∧
    (sysRun true initSys bargeRaceTrace).engine.stopEvent = false ∧
    (sysRun true initSys bargeRaceTrace).listening = true := by
  decide

/-- C7 amended: `stop_event.set()` always sets the stop flag, and once
the drain loop of `stop_speaking` has completed — i.e. from any
reachable point at which the queue has been observed empty — every
not-yet-started utterance has been removed, and as long as no further
`speak` call is made nothing further is ever rendered and the queue
stays empty, in any interleaving.  (An utterance dequeued by the
consumer between `stop_event.set()` and the drain loop escapes this
guarantee and is rendered in full on the `pyttsx3` path, which also
does not halt in-flight speech — see the counterexample.) -/
theorem c7_barge_in_amended (pyAvail : Bool) (pre post : List SysStep)
    (hq : (sysRun pyAvail initSys pre).engine.queue = [])
    (hpost : ∀ st ∈ post, st.isSpeak = false) :
    (sysRun pyAvail initSys (pre ++ post)).rendered =
      (sysRun pyAvail initSys pre).rendered ∧
    (sysRun pyAvail initSys (pre ++ post)).engine.queue = [] ∧
    (∀ s : SysState, (sysStep pyAvail s SysStep.stopSet).engine.stopEvent = true) := by
  have h := sysRun_no_speak pyAvail post (sysRun pyAvail initSys pre) hq hpost
  rw [sysRun_append]
  exact ⟨h.1, h.2, fun s => rfl⟩

/-- Prefix used by the C7 witness: two utterances queued, one taken by
the consumer, then a complete `start_listening` (flag, drain loop until
the queue is observed empty, listening on). -/
def bargeDrainedPre : List SysStep :=
  [SysStep.speak "a", SysStep.speak "b", SysStep.consumeStart,
   SysStep.stopSet, SysStep.drainOne, SysStep.drainOne, SysStep.listenOn]

/-- Continuation used by the C7 witness: the consumer and the listening
loop keep running, with no new `speak`. -/
def bargePost : List SysStep :=
  [SysStep.consumeFinish, SysStep.consumeStart, SysStep.pollListen]

/-- C7 witness: concrete post-drain barge-in interleaving. -/
theorem c7_barge_in_amended_witness :
    (sysRun true initSys (bargeDrainedPre ++ bargePost)).rendered =
      (sysRun true initSys bargeDrainedPre).rendered ∧
    (sysRun true initSys (bargeDrainedPre ++ bargePost)).engine.queue = [] ∧
    (∀ s : SysState, (sysStep true s SysStep.stopSet).engine.stopEvent = true) :=
  c7_barge_in_amended true bargeDrainedPre bargePost (by decide) (by decide)

/-- C4 amended: while a voice form is active every nonempty transcript
is routed only to the voice-form handler; while a pending question is
active (no voice form), chatbot mode is off and the transcript does not
match one of the GUI-level trigger phrases (hide/sleep, create-folder,
move-folder), it is routed only to the pending-answer handler — in
particular no general-table or high-priority keyword handler runs. -/
theorem c4_modal_suppression (st : RouterState) (raw : String)
    (h0 : pyStrip raw ≠ "") :
    (st.voiceFormActive = true → routeText st raw = Route.voiceForm) ∧
    (st.voiceFormActive = false → st.chatActive = false →
      st.pending.isSome = true →
      guiHideTrigger (pyLower (pyStrip raw)) = false →
      guiCreateTrigger (pyLower (pyStrip raw)) = false →
      guiMoveTrigger (pyLower (pyStrip raw)) = false →
      routeText st raw = Route.pendingAnswer) := by
  constructor
  · intro hv
    simp [routeText, h0, hv]
  · intro hv hc hp hh hcr hm
    simp [routeText, h0, hv, hh, hcr, hm, processDispatch, hc, hp]

/-- Router state reached by `"let's chat"`: conversation mode on and
the favourite-song question pending, no voice form, chatbot off. -/
def pendingRouter : RouterState :=
  { voiceFormActive := false, chatActive := false,
    pending := some "favorite_song", conversationMode := true }

/-- Router state with a voice form active. -/
def formActiveRouter : RouterState :=
  { voiceFormActive := true, chatActive := false, pending := none,
    conversationMode := false }

/-- C4 counterexample: with the pending question active, the transcript
`"create a folder"` is intercepted by the GUI trigger check of
`_handle_recognized_text` and starts a create-folder voice form — it is
not routed to the pending-answer handler, contradicting the claim that
every transcript reaches only the active modal handler. -/
theorem c4_modal_suppression_counterexample :
    pendingRouter.pending.isSome = true ∧
    routeText pendingRouter "create a folder" = Route.startCreateFolderRoute ∧
    Route.startCreateFolderRoute ≠ Route.pendingAnswer := by
  decide

/-- C4 witness: concrete transcripts for both halves of the amended
claim (the transcript contains the general-table key `"time"`, yet no
table handler runs). -/
theorem c4_modal_suppression_witness :
    routeText formActiveRouter "what time is it" = Route.voiceForm ∧
    routeText pendingRouter "what time is it" = Route.pendingAnswer :=
  ⟨(c4_modal_suppression formActiveRouter "what time is it" (by decide)).1 rfl,
   (c4_modal_suppression pendingRouter "what time is it" (by decide)).2
     rfl rfl rfl (by decide) (by decide) (by decide)⟩

theorem gatedTimes_append (a b : List (Int × GEvent)) :
    gatedTimes (a ++ b) = gatedTimes a ++ gatedTimes b := by
  simp [gatedTimes, List.filter_append]

theorem tapCount_append (a b : List (Int × GEvent)) :
    tapCount (a ++ b) = tapCount a + tapCount b := by
  simp [tapCount, List.filter_append]

theorem holdCount_append (a b : List (Int × GEvent)) :
    holdCount (a ++ b) = holdCount a + holdCount b := by
  simp [holdCount, List.filter_append]

theorem twoFingerPart_state_events (hold : Int) (s : GState) (t : Int) (f : Nat) :
    (twoFingerPart hold s t f).1.lastAction = s.lastAction ∧
    gatedTimes (twoFingerPart hold s t f).2 = [] ∧
    (twoFingerPart hold s t f).2.filter (fun te => te.2 = GEvent.pointerMove) = [] := by
  unfold twoFingerPart
  dsimp only
  repeat' split
  all_goals exact ⟨rfl, rfl, rfl⟩

theorem cooldownPart_spec (cool : Int) (hcool : 0 < cool) (s1 : GState)
    (t : Int) (f : Nat) :
    (cooldownPart cool s1 t f).1.twoStart = s1.twoStart ∧
    (cooldownPart cool s1 t f).1.twoHoldFired = s1.twoHoldFired ∧
    tapCount (cooldownPart cool s1 t f).2 = 0 ∧
    holdCount (cooldownPart cool s1 t f).2 = 0 ∧
    (cooldownPart cool s1 t f).2.filter (fun te => te.2 = GEvent.pointerMove) = [] ∧
    ((gatedTimes (cooldownPart cool s1 t f).2 = [] ∧
        (cooldownPart cool s1 t f).1.lastAction = s1.lastAction) ∨
      (gatedTimes (cooldownPart cool s1 t f).2 = [t] ∧
        s1.lastAction + cool ≤ t ∧
        (cooldownPart cool s1 t f).1.lastAction = t)) := by
  unfold cooldownPart
  split
  · exact ⟨rfl, rfl, rfl, rfl, rfl, Or.inl ⟨rfl, rfl⟩⟩
  · next hgate =>
    have hle : s1.lastAction + cool ≤ t := by
      rcases not_and_or.mp hgate with h | h
      · exact absurd hcool h
      · omega
    split
    · exact ⟨rfl, rfl, by simp [tapCount], by simp [holdCount], by simp,
        Or.inr ⟨by simp [gatedTimes, isGated], hle, rfl⟩⟩
    · split
      · exact ⟨rfl, rfl, by simp [tapCount], by simp [holdCount], by simp,
          Or.inr ⟨by simp [gatedTimes, isGated], hle, rfl⟩⟩
      · split
        · exact ⟨rfl, rfl, by simp [tapCount], by simp [holdCount], by simp,
            Or.inr ⟨by simp [gatedTimes, isGated], hle, rfl⟩⟩
        · exact ⟨rfl, rfl, rfl, rfl, rfl, Or.inl ⟨rfl, rfl⟩⟩

theorem gestureStep_some (hold cool : Int) (s : GState) (t : Int) (f : Nat) :
    gestureStep hold cool s (t, some f) =
      ((cooldownPart cool (twoFingerPart hold s t f).1 t f).1,
        (t, GEvent.pointerMove) ::
          ((twoFingerPart hold s t f).2 ++
            (cooldownPart cool (twoFingerPart hold s t f).1 t f).2)) := rfl

theorem gestureStep_gated (hold cool : Int) (hcool : 0 < cool) (s : GState)
    (samp : Int × Option Nat) :
    (gatedTimes (gestureStep hold cool s samp).2 = [] ∧
      (gestureStep hold cool s samp).1.lastAction = s.lastAction) ∨
    (gatedTimes (gestureStep hold cool s samp).2 = [samp.1] ∧
      s.lastAction + cool ≤ samp.1 ∧
      (gestureStep hold cool s samp).1.lastAction = samp.1) := by
  obtain ⟨t, hand⟩ := samp
  cases hand with
  | none => left; exact ⟨by simp [gestureStep, gatedTimes], rfl⟩
  | some f =>
    rw [gestureStep_some]
    have htf := twoFingerPart_state_events hold s t f
    have hcp := cooldownPart_spec cool hcool (twoFingerPart hold s t f).1 t f
    have hgcons : gatedTimes ((t, GEvent.pointerMove) ::
        ((twoFingerPart hold s t f).2 ++
          (cooldownPart cool (twoFingerPart hold s t f).1 t f).2)) =
        gatedTimes (cooldownPart cool (twoFingerPart hold s t f).1 t f).2 := by
      have hc : gatedTimes ((t, GEvent.pointerMove) ::
          ((twoFingerPart hold s t f).2 ++
            (cooldownPart cool (twoFingerPart hold s t f).1 t f).2)) =
          gatedTimes ((twoFingerPart hold s t f).2 ++
            (cooldownPart cool (twoFingerPart hold s t f).1 t f).2) := by
        simp [gatedTimes, List.filter_cons, isGated]
      rw [hc, gatedTimes_append, htf.2.1, List.nil_append]
    rcases hcp.2.2.2.2.2 with ⟨hg, hl⟩ | ⟨hg, hle, hl⟩
    · left
      refine ⟨by rw [hgcons, hg], ?_⟩
      simp only [hl, htf.1]
    · right
      refine ⟨by rw [hgcons, hg], ?_, by simp only [hl]⟩
      rw [htf.1] at hle
      exact hle

theorem gestureRun_gated_chain (hold cool : Int) (hcool : 0 < cool) :
    ∀ (samples : List (Int × Option Nat)) (s : GState),
      List.Chain (fun x y => x + cool ≤ y) s.lastAction
        (gatedTimes (gestureRun hold cool s samples).2) ∧
      (gestureRun hold cool s samples).1.lastAction =
        (gatedTimes (gestureRun hold cool s samples).2).getLastD s.lastAction := by
  intro samples
  induction samples with
  | nil => intro s; exact ⟨List.Chain.nil, rfl⟩
  | cons samp rest ih =>
    intro s
    have hrun : gestureRun hold cool s (samp :: rest) =
        ((gestureRun hold cool (gestureStep hold cool s samp).1 rest).1,
          (gestureStep hold cool s samp).2 ++
            (gestureRun hold cool (gestureStep hold cool s samp).1 rest).2) := rfl
    rw [hrun]
    simp only [gatedTimes_append]
    have hih := ih (gestureStep hold cool s samp).1
    rcases gestureStep_gated hold cool hcool s samp with ⟨hg, hl⟩ | ⟨hg, hle, hl⟩
    · rw [hg]
      simp only [List.nil_append]
      rw [hl] at hih
      exact hih
    · rw [hg]
      simp only [List.cons_append, List.nil_append]
      constructor
      · exact List.chain_cons.mpr ⟨hle, by rw [← hl]; exact hih.1⟩
      · rw [List.getLastD_cons]
        rw [hl] at hih
        exact hih.2

theorem chain_cool_pairwise (cool : Int) (hcool : 0 < cool) :
    ∀ (l : List Int) (a : Int), List.Chain (fun x y => x + cool ≤ y) a l →
      l.Pairwise (fun x y => x + cool ≤ y) ∧ ∀ x ∈ l, a + cool ≤ x := by
  intro l
  induction l with
  | nil => intro a _; exact ⟨List.Pairwise.nil, by simp⟩
  | cons b l ih =>
    intro a h
    obtain ⟨hab, hch⟩ := List.chain_cons.mp h
    obtain ⟨hp, hall⟩ := ih b hch
    refine ⟨List.Pairwise.cons hall hp, ?_⟩
    intro x hx
    rcases List.mem_cons.mp hx with rfl | hx2
    · exact hab
    · have := hall x hx2
      omega

theorem cooldownPart_no_pointer (cool : Int) (s1 : GState) (t : Int) (f : Nat) :
    (cooldownPart cool s1 t f).2.filter (fun te => te.2 = GEvent.pointerMove) = [] := by
  unfold cooldownPart
  split
  · rfl
  · split
    · simp
    · split
      · simp
      · split
        · simp
        · rfl

theorem gestureRun_pointer (hold cool : Int) :
    ∀ (samples : List (Int × Option Nat)) (s : GState),
      ((gestureRun hold cool s samples).2.filter
          (fun te => te.2 = GEvent.pointerMove)).map Prod.fst =
        samples.filterMap (fun sp => if sp.2.isSome then some sp.1 else none) := by
  intro samples
  induction samples with
  | nil => intro s; rfl
  | cons samp rest ih =>
    intro s
    have hrun : gestureRun hold cool s (samp :: rest) =
        ((gestureRun hold cool (gestureStep hold cool s samp).1 rest).1,
          (gestureStep hold cool s samp).2 ++
            (gestureRun hold cool (gestureStep hold cool s samp).1 rest).2) := rfl
    rw [hrun]
    obtain ⟨t, hand⟩ := samp
    cases hand with
    | none =>
      have hstep : gestureStep hold cool s (t, none) = (s, []) := rfl
      simp only [hstep, List.nil_append, List.filterMap_cons]
      simpa using ih s
    | some f =>
      have hA : ((gestureStep hold cool s (t, some f)).2.filter
          (fun te => te.2 = GEvent.pointerMove)) = [(t, GEvent.pointerMove)] := by
        rw [gestureStep_some]
        simp only [List.filter_cons, List.filter_append]
        rw [(twoFingerPart_state_events hold s t f).2.2, cooldownPart_no_pointer]
        simp
      simp only [List.filter_append, hA, List.map_append, List.filterMap_cons]
      simp [ih]

/-- Frame stream for the C6 fist-debounce scenario: a fist at `t=2000`
fires; the hand opens; the fist bucket is re-entered at `t=2900`, only
`900 < 1200` ms after the previous fist emission. -/
def fistStream : List (Int × Option Nat) :=
  [(2000, some 0), (2500, some 1), (2900, some 0)]

/-- C6: cooldown debounce.  (1) In the event log of any frame stream,
any two cooldown-gated emissions of the same action class are at least
`cooldownMs` apart (the proof gives this for any two gated emissions,
same class or not, since fist / three fingers / four-plus share one
`last_action` gate).  (2) `PointerMove` is emitted on every frame in
which a hand is present, with no cooldown.  (3) Re-entering the fist
bucket less than `cooldownMs` after a prior `ClosedFist` emission
yields exactly one `ClosedFist`, not two (defaults
`holdThreshold = 1.0s`, `cooldownMs = 1.2s`). -/
theorem c6_gesture_cooldown_debounce (hold cool : Int) (hcool : 0 < cool) :
    (∀ samples : List (Int × Option Nat),
      ((gestureRun hold cool initG samples).2.filter
          (fun te => isGated te.2)).Pairwise
        (fun x y => x.2 = y.2 → x.1 + cool ≤ y.1)) ∧
    (∀ samples : List (Int × Option Nat),
      ((gestureRun hold cool initG samples).2.filter
          (fun te => te.2 = GEvent.pointerMove)).map Prod.fst =
        samples.filterMap (fun sp => if sp.2.isSome then some sp.1 else none)) ∧
    fistCount (gestureRun 1000 1200 initG fistStream).2 = 1 := by
  refine ⟨fun samples => ?_, fun samples => ?_, by decide⟩
  · have hch := (gestureRun_gated_chain hold cool hcool samples initG).1
    have hpw := (chain_cool_pairwise cool hcool _ _ hch).1
    have hpw2 : ((gestureRun hold cool initG samples).2.filter
        (fun te => isGated te.2)).Pairwise
        (fun x y => x.1 + cool ≤ y.1) := by
      rw [gatedTimes] at hpw
      exact (List.pairwise_map).mp hpw
    have himp : ∀ {a b : Int × GEvent}, a.1 + cool ≤ b.1 →
        (a.2 = b.2 → a.1 + cool ≤ b.1) := fun h _ => h
    exact hpw2.imp himp
  · exact gestureRun_pointer hold cool samples initG

/-- C6 witness: the cooldown hypothesis at the default `1.2s`, plus the
fist re-entry scenario instantiated through the claim theorem. -/
theorem c6_gesture_cooldown_debounce_witness :
    (0 : Int) < 1200 ∧
    fistCount (gestureRun 1000 1200 initG fistStream).2 = 1 :=
  ⟨by decide, (c6_gesture_cooldown_debounce 1000 1200 (by decide)).2.2⟩

theorem cooldownPart_filter_tap (cool : Int) (s1 : GState) (t : Int) (f : Nat) :
    (cooldownPart cool s1 t f).2.filter
      (fun te => te.2 = GEvent.twoFingerTap) = [] := by
  unfold cooldownPart
  repeat' split
  all_goals rfl

theorem cooldownPart_filter_hold (cool : Int) (s1 : GState) (t : Int) (f : Nat) :
    (cooldownPart cool s1 t f).2.filter
      (fun te => te.2 = GEvent.twoFingerHold) = [] := by
  unfold cooldownPart
  repeat' split
  all_goals rfl

theorem getLastD_self_or_mem (l : List Int) (d : Int) :
    l.getLastD d = d ∨ l.getLastD d ∈ l := by
  induction l generalizing d with
  | nil => exact Or.inl rfl
  | cons x l ih =>
    rw [List.getLastD_cons]
    rcases ih x with heq | hmem
    · rw [heq]
      exact Or.inr (List.mem_cons_self x l)
    · exact Or.inr (List.mem_cons_of_mem x hmem)

theorem cooldownPart_two (cool : Int) (s1 : GState) (t : Int) :
    cooldownPart cool s1 t 2 = (s1, []) := by
  unfold cooldownPart
  split
  · rfl
  · simp

theorem twoFingerPart_two (hold : Int) (s : GState) (t a : Int) (b : Bool)
    (hs : s.twoStart = some a) (hb : s.twoHoldFired = b) :
    twoFingerPart hold s t 2 =
      (if b = false ∧ hold ≤ t - a then
        ({ s with twoStart := some a, twoHoldFired := true },
          [(t, GEvent.twoFingerHold)])
      else ({ s with twoStart := some a, twoHoldFired := b }, [])) := by
  unfold twoFingerPart
  simp [hs, hb]

theorem gestureRun_append (hold cool : Int) (l1 l2 : List (Int × Option Nat)) :
    ∀ s : GState,
      gestureRun hold cool s (l1 ++ l2) =
        ((gestureRun hold cool (gestureRun hold cool s l1).1 l2).1,
          (gestureRun hold cool s l1).2 ++
            (gestureRun hold cool (gestureRun hold cool s l1).1 l2).2) := by
  induction l1 with
  | nil => intro s; simp [gestureRun]
  | cons samp l1 ih =>
    intro s
    have h1 : gestureRun hold cool s ((samp :: l1) ++ l2) =
        ((gestureRun hold cool (gestureStep hold cool s samp).1 (l1 ++ l2)).1,
          (gestureStep hold cool s samp).2 ++
            (gestureRun hold cool (gestureStep hold cool s samp).1 (l1 ++ l2)).2) := rfl
    have h2 : gestureRun hold cool s (samp :: l1) =
        ((gestureRun hold cool (gestureStep hold cool s samp).1 l1).1,
          (gestureStep hold cool s samp).2 ++
            (gestureRun hold cool (gestureStep hold cool s samp).1 l1).2) := rfl
    rw [h1, ih, h2]
    simp [List.append_assoc]

theorem gestureRun_two_bucket (hold cool : Int) :
    ∀ (ts : List Int) (s : GState) (a : Int) (b : Bool),
      s.twoStart = some a → s.twoHoldFired = b →
      (gestureRun hold cool s (ts.map (fun u => (u, some 2)))).1.twoStart = some a ∧
      (gestureRun hold cool s (ts.map (fun u => (u, some 2)))).1.twoHoldFired =
        (b || ts.any (fun u => decide (hold ≤ u - a))) ∧
      tapCount (gestureRun hold cool s (ts.map (fun u => (u, some 2)))).2 = 0 ∧
      holdCount (gestureRun hold cool s (ts.map (fun u => (u, some 2)))).2 =
        (if b then 0 else if ts.any (fun u => decide (hold ≤ u - a)) then 1 else 0) := by
  intro ts
  induction ts with
  | nil =>
    intro s a b hs hb
    refine ⟨hs, by simp [gestureRun, hb], rfl, ?_⟩
    cases b <;> simp [gestureRun, holdCount, hb]
  | cons t ts ih =>
    intro s a b hs hb
    have hrun : gestureRun hold cool s
        ((t :: ts).map (fun u => (u, some 2))) =
        ((gestureRun hold cool (gestureStep hold cool s (t, some 2)).1
            (ts.map (fun u => (u, some 2)))).1,
          (gestureStep hold cool s (t, some 2)).2 ++
            (gestureRun hold cool (gestureStep hold cool s (t, some 2)).1
              (ts.map (fun u => (u, some 2)))).2) := rfl
    rw [hrun]
    by_cases hc : b = false ∧ hold ≤ t - a
    · have htf : twoFingerPart hold s t 2 =
          ({ s with twoStart := some a, twoHoldFired := true },
            [(t, GEvent.twoFingerHold)]) := by
        rw [twoFingerPart_two hold s t a b hs hb, if_pos hc]
      have hstep : gestureStep hold cool s (t, some 2) =
          ({ s with twoStart := some a, twoHoldFired := true },
            [(t, GEvent.pointerMove), (t, GEvent.twoFingerHold)]) := by
        rw [gestureStep_some, htf, cooldownPart_two]
        rfl
      rw [hstep]
      obtain ⟨h1, h2, h3, h4⟩ :=
        ih { s with twoStart := some a, twoHoldFired := true } a true rfl rfl
      refine ⟨h1, ?_, ?_, ?_⟩
      · rw [h2]
        simp [hc.1, hc.2]
      · rw [tapCount_append, h3]
        rfl
      · rw [holdCount_append, h4]
        simp [hc.1, hc.2, holdCount]
    · have htf : twoFingerPart hold s t 2 =
          ({ s with twoStart := some a, twoHoldFired := b }, []) := by
        rw [twoFingerPart_two hold s t a b hs hb, if_neg hc]
      have hstep : gestureStep hold cool s (t, some 2) =
          ({ s with twoStart := some a, twoHoldFired := b },
            [(t, GEvent.pointerMove)]) := by
        rw [gestureStep_some, htf, cooldownPart_two]
        rfl
      rw [hstep]
      obtain ⟨h1, h2, h3, h4⟩ :=
        ih { s with twoStart := some a, twoHoldFired := b } a b rfl rfl
      have hdec : b = true ∨ (b = false ∧ decide (hold ≤ t - a) = false) := by
        cases b with
        | true => exact Or.inl rfl
        | false =>
          refine Or.inr ⟨rfl, ?_⟩
          have : ¬(hold ≤ t - a) := fun hh => hc ⟨rfl, hh⟩
          simpa using this
      refine ⟨h1, ?_, ?_, ?_⟩
      · rw [h2]
        rcases hdec with hb1 | ⟨hb1, hb2⟩
        · simp [hb1]
        · simp [hb1, hb2]
      · rw [tapCount_append, h3]
        rfl
      · rw [holdCount_append, h4]
        rcases hdec with hb1 | ⟨hb1, hb2⟩
        · simp [hb1, holdCount]
        · simp [hb1, hb2, holdCount]

/-- C5 counterexample: one bucket-2 frame at `t = 0` followed by an
exit frame at `t = 1500`, with hold threshold `1000`.  The run's
duration as the code itself computes it at the exit
(`duration = now - two_start`) is `1500 ≥ 1000`, yet neither a
`TwoFingerHoldStart` nor a `TwoFingerTap` is emitted, while the claim
demands exactly one event for every maximal bucket-2 run (one hold
under the exit-measured reading of duration, one tap under the
last-in-bucket-sample reading, which here is `0 < 1000`). -/
theorem c5_two_finger_counterexample :
    holdCount (gestureRun 1000 1200 initG [(0, some 2), (1500, some 1)]).2 = 0 ∧
    tapCount (gestureRun 1000 1200 initG [(0, some 2), (1500, some 1)]).2 = 0 ∧
    (1000 : Int) ≤ 1500 - 0 ∧ (0 : Int) - 0 < 1000 := by
  decide

/-- C5 amended: for a maximal bucket-2 run entered at time `a` (from
any state not already tracking bucket 2), continuing through frames
`rest` and exited by a non-bucket-2 frame at time `te`: if the
duration measured at the exit frame (`te - a`, the code's `duration`)
is below the hold threshold, exactly one `TwoFingerTap` and zero
`TwoFingerHoldStart` are emitted; if the last in-bucket frame reaches
the threshold, exactly one `TwoFingerHoldStart` and zero
`TwoFingerTap` are emitted.  (A run whose last in-bucket frame is
below the threshold but whose exit frame is at or past it emits
neither — the counterexample.) -/
theorem c5_two_finger_tap_vs_hold (hold cool : Int) (hhold : 0 < hold)
    (s : GState) (hs : s.twoStart = none) (a te : Int) (rest : List Int)
    (fe : Nat) (hfe : fe ≠ 2) (hle : ∀ u ∈ rest, u ≤ te) :
    (te - a < hold →
      tapCount (gestureRun hold cool s
        ((a, some 2) :: (rest.map (fun u => (u, some 2)) ++ [(te, some fe)]))).2 = 1 ∧
      holdCount (gestureRun hold cool s
        ((a, some 2) :: (rest.map (fun u => (u, some 2)) ++ [(te, some fe)]))).2 = 0) ∧
    (hold ≤ rest.getLastD a - a →
      holdCount (gestureRun hold cool s
        ((a, some 2) :: (rest.map (fun u => (u, some 2)) ++ [(te, some fe)]))).2 = 1 ∧
      tapCount (gestureRun hold cool s
        ((a, some 2) :: (rest.map (fun u => (u, some 2)) ++ [(te, some fe)]))).2 = 0) := by
  have hna : ¬(hold ≤ a - a) := by omega
  have htf0 : twoFingerPart hold s a 2 =
      ({ s with twoStart := some a, twoHoldFired := false }, []) := by
    unfold twoFingerPart
    simp [hs, hna]
    omega
  have hstep0 : gestureStep hold cool s (a, some 2) =
      ({ s with twoStart := some a, twoHoldFired := false },
        [(a, GEvent.pointerMove)]) := by
    rw [gestureStep_some, htf0, cooldownPart_two]
    rfl
  have hrun : gestureRun hold cool s
      ((a, (some 2 : Option Nat)) :: (rest.map (fun u => (u, some 2)) ++ [(te, some fe)])) =
      ((gestureRun hold cool (gestureStep hold cool s (a, some 2)).1
          (rest.map (fun u => (u, some 2)) ++ [(te, some fe)])).1,
        (gestureStep hold cool s (a, some 2)).2 ++
          (gestureRun hold cool (gestureStep hold cool s (a, some 2)).1
            (rest.map (fun u => (u, some 2)) ++ [(te, some fe)])).2) := rfl
  rw [hrun, hstep0]
  rw [gestureRun_append]
  dsimp only
  obtain ⟨hm1, hm2, hm3, hm4⟩ := gestureRun_two_bucket hold cool rest
    { s with twoStart := some a, twoHoldFired := false } a false rfl rfl
  set s2 := (gestureRun hold cool
    { s with twoStart := some a, twoHoldFired := false }
    (rest.map (fun u => (u, some 2)))).1 with hs2def
  have htfe : twoFingerPart hold s2 te fe =
      ({ s2 with twoStart := none, twoHoldFired := false },
        if te - a < hold then [(te, GEvent.twoFingerTap)] else []) := by
    unfold twoFingerPart
    rw [if_neg hfe]
    rw [hm1]
  have hexitevs : (gestureRun hold cool s2 [(te, (some fe : Option Nat))]).2 =
      (gestureStep hold cool s2 (te, some fe)).2 ++ [] := rfl
  constructor
  · intro hdur
    have hanyf : rest.any (fun u => decide (hold ≤ u - a)) = false := by
      rw [List.any_eq_false]
      intro u hu
      have := hle u hu
      simp only [decide_eq_true_eq]
      omega
    have hmidhold : holdCount (gestureRun hold cool
        { s with twoStart := some a, twoHoldFired := false }
        (rest.map (fun u => (u, some 2)))).2 = 0 := by
      rw [hm4]
      simp [hanyf]
    have hstepE : (gestureStep hold cool s2 (te, some fe)).2 =
        (te, GEvent.pointerMove) :: ([(te, GEvent.twoFingerTap)] ++
          (cooldownPart cool { s2 with twoStart := none, twoHoldFired := false }
            te fe).2) := by
      simp only [gestureStep_some, htfe, if_pos hdur]
    have hexittap : tapCount (gestureRun hold cool s2
        [(te, (some fe : Option Nat))]).2 = 1 := by
      rw [hexitevs, tapCount_append, hstepE]
      simp [tapCount, List.filter_cons, List.filter_append, cooldownPart_filter_tap]
    have hexithold : holdCount (gestureRun hold cool s2
        [(te, (some fe : Option Nat))]).2 = 0 := by
      rw [hexitevs, holdCount_append, hstepE]
      simp [holdCount, List.filter_cons, List.filter_append, cooldownPart_filter_hold]
    constructor
    · rw [tapCount_append, tapCount_append, hm3, hexittap]
      simp [tapCount]
    · rw [holdCount_append, holdCount_append, hmidhold, hexithold]
      simp [holdCount]
  · intro h2
    rcases getLastD_self_or_mem rest a with heq | hmem
    · rw [heq] at h2
      exact absurd h2 hna
    · have hanyt : rest.any (fun u => decide (hold ≤ u - a)) = true := by
        rw [List.any_eq_true]
        exact ⟨rest.getLastD a, hmem, by simpa using h2⟩
      have hdur2 : ¬(te - a < hold) := by
        have := hle (rest.getLastD a) hmem
        omega
      have hmidhold : holdCount (gestureRun hold cool
          { s with twoStart := some a, twoHoldFired := false }
          (rest.map (fun u => (u, some 2)))).2 = 1 := by
        rw [hm4]
        simp [hanyt]
      have hstepE : (gestureStep hold cool s2 (te, some fe)).2 =
          (te, GEvent.pointerMove) :: ([] ++
            (cooldownPart cool { s2 with twoStart := none, twoHoldFired := false }
              te fe).2) := by
        simp only [gestureStep_some, htfe, if_neg hdur2]
      have hexittap : tapCount (gestureRun hold cool s2
          [(te, (some fe : Option Nat))]).2 = 0 := by
        rw [hexitevs, tapCount_append, hstepE]
        simp [tapCount, List.filter_cons, List.filter_append, cooldownPart_filter_tap]
      have hexithold : holdCount (gestureRun hold cool s2
          [(te, (some fe : Option Nat))]).2 = 0 := by
        rw [hexitevs, holdCount_append, hstepE]
        simp [holdCount, List.filter_cons, List.filter_append, cooldownPart_filter_hold]
      constructor
      · rw [holdCount_append, holdCount_append, hmidhold, hexithold]
        simp [holdCount]
      · rw [tapCount_append, tapCount_append, hm3, hexittap]
        simp [tapCount]

/-- C5 witness: the spec's own two test runs at the default thresholds
(`hold = 1.0s`, `cooldown = 1.2s`): a `0.3s` bucket-2 run yields
exactly one tap and no hold; a run whose last in-bucket frame is at
`1.1s` (exit `1.5s`) yields exactly one hold and no tap. -/
theorem c5_two_finger_tap_vs_hold_witness :
    (tapCount (gestureRun 1000 1200 initG
        ((0, some 2) :: (([] : List Int).map (fun u => (u, some 2)) ++
          [(300, some 1)]))).2 = 1 ∧
      holdCount (gestureRun 1000 1200 initG
        ((0, some 2) :: (([] : List Int).map (fun u => (u, some 2)) ++
          [(300, some 1)]))).2 = 0) ∧
    (holdCount (gestureRun 1000 1200 initG
        ((0, some 2) :: (([1100] : List Int).map (fun u => (u, some 2)) ++
          [(1500, some 1)]))).2 = 1 ∧
      tapCount (gestureRun 1000 1200 initG
        ((0, some 2) :: (([1100] : List Int).map (fun u => (u, some 2)) ++
          [(1500, some 1)]))).2 = 0) :=
  ⟨(c5_two_finger_tap_vs_hold 1000 1200 (by decide) initG rfl 0 300 [] 1
      (by decide) (fun u hu => absurd hu (List.not_mem_nil u))).1 (by decide),
   (c5_two_finger_tap_vs_hold 1000 1200 (by decide) initG rfl 0 1500 [1100] 1
      (by decide) (by intro u hu; simp at hu; omega)).2 (by decide)⟩

theorem mkdirEffs_append (a b : List Eff) :
    mkdirEffs (a ++ b) = mkdirEffs a ++ mkdirEffs b := by
  simp [mkdirEffs, List.filterMap_append]

theorem voiceFormRunAll_append (home : String) (fs : List String)
    (l1 l2 : List String) :
    ∀ form : Option VForm,
      voiceFormRunAll home fs form (l1 ++ l2) =
        ((voiceFormRunAll home fs (voiceFormRunAll home fs form l1).1 l2).1,
          (voiceFormRunAll home fs form l1).2 ++
            (voiceFormRunAll home fs (voiceFormRunAll home fs form l1).1 l2).2) := by
  induction l1 with
  | nil => intro form; simp [voiceFormRunAll]
  | cons t l1 ih =>
    intro form
    have h1 : voiceFormRunAll home fs form ((t :: l1) ++ l2) =
        ((voiceFormRunAll home fs (voiceFormHandle home fs form t).1 (l1 ++ l2)).1,
          (voiceFormHandle home fs form t).2 ++
            (voiceFormRunAll home fs (voiceFormHandle home fs form t).1 (l1 ++ l2)).2) := rfl
    have h2 : voiceFormRunAll home fs form (t :: l1) =
        ((voiceFormRunAll home fs (voiceFormHandle home fs form t).1 l1).1,
          (voiceFormHandle home fs form t).2 ++
            (voiceFormRunAll home fs (voiceFormHandle home fs form t).1 l1).2) := rfl
    rw [h1, ih, h2]
    simp [List.append_assoc]

/-- Fresh create-folder form as built by `_voice_form_start_create_folder`. -/
def cfInit (home : String) (fs : List String) : CreateForm :=
  { step := CFStep.name, name := "", destDir := defaultUserLocation home fs }

/-- Create-folder form waiting at the location-or-confirm step. -/
def cfAt (nm dest : String) : CreateForm :=
  { step := CFStep.locationOrConfirm, name := nm, destDir := dest }

theorem voiceFormRunAll_locations (home : String) (fs : List String) :
    ∀ (ls : List String) (nm dest : String),
      (∀ l ∈ ls, cancelPhrase l = false ∧ confirmPhraseCF l = false ∧
        (locationFromSpeech home l).isSome = true) →
      (voiceFormRunAll home fs (some (VForm.create (cfAt nm dest))) ls).1 =
        some (VForm.create (cfAt nm (lastDest home dest ls))) ∧
      mkdirEffs (voiceFormRunAll home fs
        (some (VForm.create (cfAt nm dest))) ls).2 = [] := by
  intro ls
  induction ls with
  | nil => intro nm dest _; exact ⟨rfl, rfl⟩
  | cons l ls ih =>
    intro nm dest h
    obtain ⟨hc, hcf, hso⟩ := h l (List.mem_cons_self l ls)
    obtain ⟨loc, hloc⟩ := Option.isSome_iff_exists.mp hso
    have hhandle : voiceFormHandle home fs
        (some (VForm.create (cfAt nm dest))) l =
        (some (VForm.create (cfAt nm (expandUser home loc))),
         [Eff.speak "Say confirm to create the folder."]) := by
      simp [voiceFormHandle, handleCreateFolder, cfAt, hc, hcf, hloc]
    have hrun : voiceFormRunAll home fs
        (some (VForm.create (cfAt nm dest))) (l :: ls) =
        ((voiceFormRunAll home fs
            (voiceFormHandle home fs (some (VForm.create (cfAt nm dest))) l).1 ls).1,
          (voiceFormHandle home fs (some (VForm.create (cfAt nm dest))) l).2 ++
            (voiceFormRunAll home fs
              (voiceFormHandle home fs
                (some (VForm.create (cfAt nm dest))) l).1 ls).2) := rfl
    rw [hrun, hhandle]
    dsimp only
    obtain ⟨ih1, ih2⟩ := ih nm (expandUser home loc)
      (fun x hx => h x (List.mem_cons_of_mem l hx))
    have hLD : lastDest home dest (l :: ls) =
        lastDest home (expandUser home loc) ls := by
      simp [lastDest, hloc]
    rw [hLD]
    exact ⟨ih1, by rw [mkdirEffs_append, ih2]; rfl⟩

/-- C3: create-folder voice-form linearity.  (1) While any voice form
is active, a transcript recognized as a cancellation phrase destroys
the form (back to idle) with no folder-creation call.  (2) Starting the
create-folder form, then providing a name transcript, any number of
recognized location transcripts, and a confirmation transcript, results
in exactly one folder-creation call, whose path is built from the
last-provided name and location (under the conflict-rename policy
applied to the existing paths `fs`). -/
theorem c3_create_folder_linearity (home : String) (fs : List String)
    (f : VForm) (ctext : String) (hcan : cancelPhrase ctext = true)
    (nt : String) (ls : List String) (ct : String)
    (hn1 : cancelPhrase nt = false)
    (hn2 : pyStrip (extractFolderName nt) ≠ "")
    (hl : ∀ l ∈ ls, cancelPhrase l = false ∧ confirmPhraseCF l = false ∧
      (locationFromSpeech home l).isSome = true)
    (hc1 : cancelPhrase ct = false) (hc2 : confirmPhraseCF ct = true) :
    ((voiceFormHandle home fs (some f) ctext).1 = none ∧
      mkdirEffs (voiceFormHandle home fs (some f) ctext).2 = []) ∧
    ((voiceFormRunAll home fs
        (startCreateFolderForm home fs none).1 (nt :: (ls ++ [ct]))).1 = none ∧
      mkdirEffs ((startCreateFolderForm home fs none).2 ++
        (voiceFormRunAll home fs
          (startCreateFolderForm home fs none).1 (nt :: (ls ++ [ct]))).2) =
        [uniquePath
          (pyStrip (lastDest home (defaultUserLocation home fs) ls) :: fs)
          (pyStrip (lastDest home (defaultUserLocation home fs) ls) ++ "/" ++
            pyStrip (extractFolderName nt))]) := by
  have hnm : extractFolderName nt ≠ "" := by
    intro h
    apply hn2
    rw [h]
    rfl
  constructor
  · constructor
    · simp [voiceFormHandle, hcan]
    · simp [voiceFormHandle, hcan, mkdirEffs]
  · have hstart : (startCreateFolderForm home fs none).1 =
        some (VForm.create (cfInit home fs)) := rfl
    have hhandleN : voiceFormHandle home fs
        (some (VForm.create (cfInit home fs))) nt =
        (some (VForm.create
          (cfAt (extractFolderName nt) (defaultUserLocation home fs))),
         [Eff.speak ("Where should I create it? Say desktop, downloads, " ++
           "documents, home, or say confirm.")]) := by
      simp [voiceFormHandle, handleCreateFolder, cfInit, cfAt, hn1, hnm]
    have hrunCons : voiceFormRunAll home fs
        (some (VForm.create (cfInit home fs))) (nt :: (ls ++ [ct])) =
        ((voiceFormRunAll home fs
            (voiceFormHandle home fs
              (some (VForm.create (cfInit home fs))) nt).1 (ls ++ [ct])).1,
          (voiceFormHandle home fs
            (some (VForm.create (cfInit home fs))) nt).2 ++
            (voiceFormRunAll home fs
              (voiceFormHandle home fs
                (some (VForm.create (cfInit home fs))) nt).1 (ls ++ [ct])).2) := rfl
    rw [hstart, hrunCons, hhandleN]
    dsimp only
    rw [voiceFormRunAll_append]
    obtain ⟨hls1, hls2⟩ := voiceFormRunAll_locations home fs ls
      (extractFolderName nt) (defaultUserLocation home fs) hl
    rw [hls1]
    have hhandleC : voiceFormHandle home fs
        (some (VForm.create (cfAt (extractFolderName nt)
          (lastDest home (defaultUserLocation home fs) ls)))) ct =
        (none,
         [Eff.ensureDir (pyStrip (lastDest home (defaultUserLocation home fs) ls)),
          Eff.mkdir (uniquePath
            (pyStrip (lastDest home (defaultUserLocation home fs) ls) :: fs)
            (pyStrip (lastDest home (defaultUserLocation home fs) ls) ++ "/" ++
              pyStrip (extractFolderName nt))),
          Eff.logMsg ("Folder created: " ++ uniquePath
            (pyStrip (lastDest home (defaultUserLocation home fs) ls) :: fs)
            (pyStrip (lastDest home (defaultUserLocation home fs) ls) ++ "/" ++
              pyStrip (extractFolderName nt))),
          Eff.speak "Folder created."]) := by
      simp [voiceFormHandle, handleCreateFolder, cfAt, createFolderNow,
        hc1, hc2, hn2]
    have hrunC : voiceFormRunAll home fs
        (some (VForm.create (cfAt (extractFolderName nt)
          (lastDest home (defaultUserLocation home fs) ls)))) [ct] =
        ((voiceFormRunAll home fs
            (voiceFormHandle home fs
              (some (VForm.create (cfAt (extractFolderName nt)
                (lastDest home (defaultUserLocation home fs) ls)))) ct).1 []).1,
          (voiceFormHandle home fs
            (some (VForm.create (cfAt (extractFolderName nt)
              (lastDest home (defaultUserLocation home fs) ls)))) ct).2 ++
            []) := rfl
    rw [hrunC, hhandleC]
    dsimp only
    constructor
    · rfl
    · rw [mkdirEffs_append, mkdirEffs_append, mkdirEffs_append, hls2]
      rfl

/-- C3 witness: concrete flow `"projects"` / `"put it in documents"` /
`"confirm"` from a fresh start (no directories exist, so the default
location is the home directory), plus a concrete cancellation while a
form is active. -/
theorem c3_create_folder_linearity_witness :
    ((voiceFormHandle "/home/u" []
        (some (VForm.create (cfInit "/home/u" []))) "cancel").1 = none ∧
      mkdirEffs (voiceFormHandle "/home/u" []
        (some (VForm.create (cfInit "/home/u" []))) "cancel").2 = []) ∧
    ((voiceFormRunAll "/home/u" []
        (startCreateFolderForm "/home/u" [] none).1
        ("projects" :: (["put it in documents"] ++ ["confirm"]))).1 = none ∧
      mkdirEffs ((startCreateFolderForm "/home/u" [] none).2 ++
        (voiceFormRunAll "/home/u" []
          (startCreateFolderForm "/home/u" [] none).1
          ("projects" :: (["put it in documents"] ++ ["confirm"]))).2) =
        [uniquePath
          (pyStrip (lastDest "/home/u" (defaultUserLocation "/home/u" [])
            ["put it in documents"]) :: [])
          (pyStrip (lastDest "/home/u" (defaultUserLocation "/home/u" [])
            ["put it in documents"]) ++ "/" ++
            pyStrip (extractFolderName "projects"))]) :=
  c3_create_folder_linearity "/home/u" []
    (VForm.create (cfInit "/home/u" []))
    "cancel" (by decide) "projects" ["put it in documents"] "confirm"
    (by decide) (by decide)
    (by intro l hl; simp at hl; subst hl; exact ⟨by decide, by decide, by decide⟩)
    (by decide) (by decide)

/-- C10 witness: with only `/home/u/Desktop/projects` existing, the
conflict-rename policy returns `/home/u/Desktop/projects (1)` for the
existing path and leaves a fresh path unchanged. -/
theorem c10_unique_path_witness :
    uniquePath ["/home/u/Desktop/projects"] "/home/u/Desktop/projects" =
      "/home/u/Desktop/projects (1)" ∧
    uniquePath ["/home/u/Desktop/projects"] "/home/u/Desktop/other" =
      "/home/u/Desktop/other" := by
  constructor
  · obtain ⟨-, h2, -⟩ := c10_unique_path_conflict_rename
      ["/home/u/Desktop/projects"] "/home/u/Desktop/projects"
    obtain ⟨n, h1, heq, hfree, hmin⟩ := h2 (by decide)
    have hn : n = 1 := by
      by_contra hne
      have hmem := hmin 1 (by omega) (by omega)
      revert hmem
      decide
    rw [heq, hn]
    decide
  · exact (c10_unique_path_conflict_rename _ _).1 (by decide)

end Friday
